import Mathlib

/-!
Shallow embedding of the csv_chatbot repository (src/app.py and src/rag.py)
and verification of its specification claims.

app.py is a Streamlit chat UI delegating dataframe question answering to
PandasAI; rag.py is a console RAG script over FAISS + LangChain.  Library
behaviour that is external to this repository (the LLM, embedding scores,
the dataframe chat implementations) is modelled by function-valued
parameters; everything written in the repository itself is translated
directly.
-/

namespace CsvChatbot

/-! ## Common data: rows, dataframes, exceptions -/

/-- A CSV/dataframe row: column names paired with an optional cell value.
`none` models a null (NaN) cell. -/
abbrev Row := List (String × Option String)

/-- An in-memory dataframe (the object `pai.read_csv` / `pd.read_csv` return),
reduced to its rows. -/
structure DataFrame where
  rows : List Row
deriving DecidableEq

/-- Python exceptions, as far as this code distinguishes them:
`pandasai.exceptions.ExecuteSQLQueryNotUsed` is caught by name in
`safe_chat` (src/app.py line 264); every other exception is carried with its
message (`str(e)`, used by rag.py line 162). -/
inductive PyExn
  | executeSQLQueryNotUsed
  | other (msg : String)
deriving DecidableEq

/-! ## app.py — environment validation and LLM construction (lines 30–56) -/

/-- The process environment: a partial map from variable names to strings
(`os.getenv` returns `None` when the variable is absent). -/
abbrev Env := String → Option String

/-- Python truthiness of an `os.getenv` result as tested by
`all([...])`: `None` and the empty string are falsy. -/
def truthy : Option String → Bool
  | none => false
  | some s => !(s = "")

/-- `all([AZURE_OPENAI_API_KEY, AZURE_OPENAI_ENDPOINT, AZURE_OPENAI_DEPLOYMENT,
AZURE_OPENAI_API_VERSION])` — the presence check both files perform
(src/app.py lines 35–40, src/rag.py lines 27–32). -/
def all_azure_env (env : Env) : Bool :=
  truthy (env "AZURE_OPENAI_API_KEY") &&
  truthy (env "AZURE_OPENAI_ENDPOINT") &&
  truthy (env "AZURE_OPENAI_DEPLOYMENT") &&
  truthy (env "AZURE_OPENAI_API_VERSION")

/-- The LiteLLM client the chat UI constructs (src/app.py lines 47–54). -/
structure LiteLLM where
  model : String
  api_key : String
  api_base : String
  api_version : String
deriving DecidableEq

/-- `init_llm` (src/app.py lines 48–54): builds the LiteLLM client from the
four environment values, with model `azure/{AZURE_OPENAI_DEPLOYMENT}`. -/
def init_llm (dep key endp ver : String) : LiteLLM :=
  { model := "azure/" ++ dep, api_key := key, api_base := endp, api_version := ver }

/-- Startup of app.py as far as the environment is concerned
(lines 30–56): read the four variables, show an error and stop when any is
missing (`st.error` + `st.stop`), otherwise construct the LiteLLM client. -/
def app_startup (env : Env) : Except String LiteLLM :=
  if !(all_azure_env env) then
    .error "❌ Azure OpenAI environment variables are missing"
  else
    .ok (init_llm ((env "AZURE_OPENAI_DEPLOYMENT").getD "")
      ((env "AZURE_OPENAI_API_KEY").getD "")
      ((env "AZURE_OPENAI_ENDPOINT").getD "")
      ((env "AZURE_OPENAI_API_VERSION").getD ""))

/-- The AzureChatOpenAI client rag.py constructs (src/rag.py lines 100–106). -/
structure AzureChatOpenAI where
  azure_endpoint : String
  api_key : String
  api_version : String
  deployment_name : String
  temperature : Nat
deriving DecidableEq

/-- Startup of rag.py as far as the environment is concerned
(src/rag.py lines 22–33 and 100–106): read the four variables, raise
`ValueError` when any is missing, otherwise construct the chat model with
`temperature=0`. -/
def rag_startup (env : Env) : Except String AzureChatOpenAI :=
  if !(all_azure_env env) then
    .error "❌ Missing Azure OpenAI environment variables"
  else
    .ok { azure_endpoint := (env "AZURE_OPENAI_ENDPOINT").getD ""
          api_key := (env "AZURE_OPENAI_API_KEY").getD ""
          api_version := (env "AZURE_OPENAI_API_VERSION").getD ""
          deployment_name := (env "AZURE_OPENAI_DEPLOYMENT").getD ""
          temperature := 0 }

/-! ## app.py — chat messages, safe_chat, scope dispatch (lines 22–23, 261–361) -/

/-- The 52-character "=" separator line of the `System_prompt`. -/
def sp_eq_bar : String := String.mk (List.replicate 52 (Char.ofNat 61))

/-- The 52-character "-" separator line of the `System_prompt`. -/
def sp_dash_bar : String := String.mk (List.replicate 52 (Char.ofNat 45))

/-- The text of the `System_prompt` (src/app.py lines 61–243) before the
quoted rule-6 fallback answer, with the separator lines written via
`List.replicate`; the value is byte-identical to the source literal. -/
def System_prompt_before_rule6_answer : String :=
  "
You are a STRICT, SQL-driven financial analytics customer assistant.
\"IMPORTANT\"
You should not give answer to this questions5:
   - CEOs
   - company history
   - company descriptions
   - people
   - market conditions
You can reply to greeting and farewell messages.do not run query for them.
You are operating in DATA-ONLY MODE.
You are allowed to answer questions ONLY using the provided dataframe(s).
These dataframe(s) come from internal financial CSV files and represent real
portfolio holdings and executed trades.

" ++
  sp_eq_bar ++
  "
DATASETS YOU HAVE ACCESS TO (VERY IMPORTANT)
" ++
  sp_eq_bar ++
  "

You have EXACTLY TWO datasets:

" ++
  sp_dash_bar ++
  "
1) HOLDINGS DATASET (table_holdings)
" ++
  sp_dash_bar ++
  "
This dataset represents portfolio HOLDINGS (open positions).
Each row corresponds to a position held by a portfolio in a security.

This dataset is used for:
- Portfolio exposure analysis
- Holdings quantities
- Performance and P&L analysis
- Long / short / repo / CDS positions

Key columns and their meaning:

- PortfolioName
  → Name of the fund / portfolio (e.g. Platpot, Ytum, HoldCo 11)

- SecName
  → Security identifier used in holdings
  → Can represent equities, bonds, repos, CDS, FX forwards, etc.
  → This is the PRIMARY identifier for holdings

- Qty
  → Current holding quantity
  → Can be POSITIVE (long) or NEGATIVE (short / repo / hedge)

- StartQty
  → Quantity at the start of the period

- Price
  → Current price of the security

- MV_Local
  → Market value in local currency

- MV_Base
  → Market value in base currency

- PL_DTD
  → Profit & Loss day-to-date

- PL_MTD
  → Profit & Loss month-to-date

- PL_QTD
  → Profit & Loss quarter-to-date

- PL_YTD
  → Profit & Loss year-to-date

IMPORTANT NOTES FOR HOLDINGS:
- A portfolio can appear multiple times (multiple securities).
- Negative quantities are VALID and represent financing or hedging positions.
- Performance questions must be answered using PL_* columns.

" ++
  sp_dash_bar ++
  "
2) TRADES DATASET (table_trades)
" ++
  sp_dash_bar ++
  "
This dataset represents EXECUTED TRADES.
Each row corresponds to one executed trade.

This dataset is used for:
- Trade counts
- Trade frequency
- Traded quantities
- Turnover analysis

Key columns and their meaning:

- PortfolioName
  → Portfolio executing the trade

- Name
  → Instrument name used for trading
  → This is the PRIMARY identifier for trades

- Ticker
  → Market ticker symbol
  → May be NULL for many instruments (bonds, OTC trades)

- Quantity
  → Quantity traded in the transaction

- TradeTypeName
  → Buy or Sell

- TradeDate
  → Execution date

- Price
  → Trade execution price

- TotalCash
  → Total cash impact of the trade

IMPORTANT NOTES FOR TRADES:
- Ticker may be NULL — this is expected and valid.
- Use Name instead of Ticker when aggregating symbols.
- Multiple trades can exist for the same instrument and portfolio.

" ++
  sp_dash_bar ++
  "
3) MULTI-TABLE ANALYSIS (HOLDINGS + TRADES)
" ++
  sp_dash_bar ++
  "
When a question involves BOTH holdings and trades:

- You MUST use SQL-style joins
- Preferred join key:
    table_holdings.SecName = table_trades.Name

- Always aggregate BEFORE joining when appropriate
- Use LEFT JOIN / FULL JOIN where necessary to avoid data loss

" ++
  sp_eq_bar ++
  "
**MANDATORY RULES (NO EXCEPTIONS)**
" ++
  sp_eq_bar ++
  "

1. You MUST answer ONLY using the data in the provided dataframe(s).
2. You MUST use SQL-style reasoning:
   - aggregation
   - filtering
   - grouping
   - joins
3. You MUST NOT use:
   - external knowledge
   - general financial knowledge
   - internet facts
   - assumptions
4. You MUST NOT fabricate:
   - columns
   - values
   - symbols
   - explanations
5. You MUST NEVER answer questions about:
   - CEOs
   - company history
   - company descriptions
   - people
   - market conditions
6. If the answer CANNOT be derived from the dataframe(s),
   respond EXACTLY with:
   "

/-- The exact string rule 6 of the system prompt instructs the library to
respond with when the answer cannot be derived from the dataframes
(src/app.py line 225, without the surrounding quotes of the prompt text). -/
def system_prompt_fallback : String :=
  "I don't know — this information is not in the CSV."

/-- The text of the `System_prompt` after the quoted rule-6 fallback
answer. -/
def System_prompt_after_rule6_answer : String :=
  "

" ++
  sp_eq_bar ++
  "
OUTPUT RULES
" ++
  sp_eq_bar ++
  "

- If the question asks for comparison or aggregation → return a TABLE.
- If the question asks for a single metric → return only that value.
- Do NOT add commentary, interpretation, or explanation.
- Do NOT guess missing information.

" ++
  sp_eq_bar ++
  "
FINAL REMINDER
" ++
  sp_eq_bar ++
  "

If it is not explicitly present as a column or value in the CSV data,
you DO NOT know it.
"

/-- The `System_prompt` string set on `pai.config` (src/app.py lines 61–243),
byte-identical to the single source literal; written as a concatenation split
at the quoted rule-6 fallback answer, so that the occurrence of that string
inside the prompt is explicit. -/
def System_prompt : String :=
  System_prompt_before_rule6_answer ++ "\"" ++ system_prompt_fallback ++
    "\"" ++ System_prompt_after_rule6_answer

/-- A value returned by a delegated chat call.  The code only distinguishes
dataframe-like results (`hasattr(response, "head")`, src/app.py line 350)
from everything else; non-dataframe results are modelled by their string
rendering. -/
inductive Response
  | df (d : DataFrame)
  | str (s : String)
deriving DecidableEq

/-- The content slot of a stored chat message: either plain text or the
dict `{"dataframe": response}` built at src/app.py line 354. -/
inductive Content
  | text (s : String)
  | dataframeDict (d : DataFrame)
deriving DecidableEq

/-- One entry of `st.session_state.messages`. -/
structure Message where
  role : String
  content : Content
deriving DecidableEq

/-- The fixed fallback answer string of src/app.py lines 265, 267 and 348. -/
def fallbackAnswer : String :=
  "I don't know — this information is not in the CSV."

/-- The delegated question-answering backend, external to this repository:
`holdings_df.chat`, `trades_df.chat`, and `pai.chat(prompt, holdings_df,
trades_df)`.  Each call either returns a value or raises an exception. -/
structure ChatBackend where
  holdings_chat : String → Except PyExn Response
  trades_chat : String → Except PyExn Response
  pai_chat : String → Except PyExn Response

/-- `safe_chat` (src/app.py lines 261–267): call `fn.chat(question)`;
on `ExecuteSQLQueryNotUsed` or any other exception return the fallback. -/
def safe_chat (fn_chat : String → Except PyExn Response) (question : String) :
    Response :=
  match fn_chat question with
  | .ok r => r
  | .error .executeSQLQueryNotUsed => .str fallbackAnswer
  | .error (.other _) => .str fallbackAnswer

/-- The delegated call the scope dispatch issues (src/app.py lines 335–346):
`holdings_df.chat` for "Holdings", `trades_df.chat` for "Trades", and
`pai.chat` with both dataframes otherwise. -/
def delegated_call_result (b : ChatBackend) (data_scope prompt : String) :
    Except PyExn Response :=
  if data_scope = "Holdings" then b.holdings_chat prompt
  else if data_scope = "Trades" then b.trades_chat prompt
  else b.pai_chat prompt

/-- The body of the `try` at src/app.py lines 334–346, as an exception-or-value
result: the first two branches go through `safe_chat` and never raise, the
third calls `pai.chat` directly and may raise. -/
def scope_response_attempt (b : ChatBackend) (data_scope prompt : String) :
    Except PyExn Response :=
  if data_scope = "Holdings" then .ok (safe_chat b.holdings_chat prompt)
  else if data_scope = "Trades" then .ok (safe_chat b.trades_chat prompt)
  else b.pai_chat prompt

/-- The response bound by the `try`/`except` of src/app.py lines 334–348:
any exception escaping the dispatch is replaced with the fallback string. -/
def scope_response (b : ChatBackend) (data_scope prompt : String) : Response :=
  match scope_response_attempt b data_scope prompt with
  | .ok r => r
  | .error _ => .str fallbackAnswer

/-- The assistant message appended for a response (src/app.py lines 350–361):
dataframe-like responses are stored as `{"dataframe": response}`, everything
else as-is. -/
def assistant_message (response : Response) : Message :=
  match response with
  | .df d => { role := "assistant", content := .dataframeDict d }
  | .str s => { role := "assistant", content := .text s }

/-- The `if prompt:` block of src/app.py lines 321–361: on a truthy (non-empty)
prompt, append the user message, compute the scoped response, and append the
assistant message; otherwise leave the history unchanged. -/
def handle_prompt (b : ChatBackend) (data_scope : String)
    (messages : List Message) (prompt : String) : List Message :=
  if prompt = "" then messages
  else
    let messages := messages ++ [{ role := "user", content := .text prompt }]
    let response := scope_response b data_scope prompt
    messages ++ [assistant_message response]

/-- One rendered UI element of the history loop (src/app.py lines 306–311):
`st.dataframe` for dict contents holding a "dataframe" key, `st.write`
otherwise, inside a chat bubble for the message's role. -/
inductive Rendered
  | table (role : String) (d : DataFrame)
  | write (role : String) (c : Content)
deriving DecidableEq

/-- Rendering of one stored message (src/app.py lines 307–311). -/
def render_message (m : Message) : Rendered :=
  match m.content with
  | .dataframeDict d => .table m.role d
  | .text s => .write m.role (.text s)

/-- The render loop over `st.session_state.messages` (src/app.py lines
306–311): every stored message, in list order. -/
def render_history (messages : List Message) : List Rendered :=
  messages.map render_message

/-- The UI events that modify `st.session_state.messages`: the Clear-chat
button (src/app.py lines 299–301) and a chat-input submission (line 316;
`None`/empty means no submission). -/
inductive UIEvent
  | clear_chat
  | chat_input (prompt : String)

/-- Effect of one UI event on the stored message list. -/
def ui_step (b : ChatBackend) (data_scope : String)
    (messages : List Message) : UIEvent → List Message
  | .clear_chat => []
  | .chat_input p => handle_prompt b data_scope messages p

/-- A session's message list after a sequence of UI events, starting from the
empty initialization of src/app.py lines 22–23. -/
def session_messages (b : ChatBackend) (data_scope : String)
    (events : List UIEvent) : List Message :=
  events.foldl (ui_step b data_scope) []

/-! ## rag.py — documents, vector store, prompt, chain, loop -/

/-- A LangChain `Document` (src/rag.py lines 61–66): page content plus the
`{"source": source}` metadata. -/
structure Document where
  page_content : String
  source : String
deriving DecidableEq

/-- `create_readable_text_from_row` (src/rag.py lines 51–56): collect
`f"{col}: {val}"` for every non-null cell, join with `". "`, append `"."`. -/
def create_readable_text_from_row (row : Row) : String :=
  String.intercalate ". "
    (row.filterMap fun cv => cv.2.map fun v => cv.1 ++ ": " ++ v) ++ "."

/-- `df_to_documents` (src/rag.py lines 58–67): one document per dataframe
row, in row order, tagged with the given source. -/
def df_to_documents (df : List Row) (source : String) : List Document :=
  df.map fun row =>
    { page_content := create_readable_text_from_row row, source := source }

/-- An `AIMessage` returned by the chat model; `StrOutputParser` extracts its
string content. -/
structure LLMMessage where
  content : String
deriving DecidableEq

/-- The fixed parts of rag.py's runtime configuration (src/rag.py lines
42–43, 79–106): the two CSV files on disk, plus the external components —
the embedding-induced similarity score FAISS ranks by, LangChain's rendering
of a retrieved document list into the `{context}` slot, and the hosted chat
model, which may raise. -/
structure RagConfig where
  holding_csv : List Row
  trade_csv : List Row
  similarity : String → Document → Int
  format_docs : List Document → String
  llm : String → Except PyExn LLMMessage

/-- `holding_df` (src/rag.py line 42): `pd.read_csv(..., nrows=1023)` keeps
the first 1023 CSV rows. -/
def holding_df (cfg : RagConfig) : List Row := cfg.holding_csv.take 1023

/-- `trade_df` (src/rag.py line 43): `pd.read_csv(..., nrows=700)` keeps the
first 700 CSV rows. -/
def trade_df (cfg : RagConfig) : List Row := cfg.trade_csv.take 700

/-- `documents` (src/rag.py lines 69–72): holdings documents followed by
trade documents. -/
def documents (cfg : RagConfig) : List Document :=
  df_to_documents (holding_df cfg) "holding" ++
  df_to_documents (trade_df cfg) "trade"

/-- The retriever (src/rag.py lines 88–93): `FAISS.from_documents` indexes
`documents`, and `as_retriever(search_type="similarity",
search_kwargs={"k": 100})` returns the `k` documents most similar to the
question — modelled as the first `k` of the documents sorted by descending
similarity score. -/
def retrieve (cfg : RagConfig) (k : Nat) (question : String) : List Document :=
  (List.mergeSort (documents cfg) fun a b =>
      decide (cfg.similarity question b ≤ cfg.similarity question a)).take k

/-- Text of the prompt template before the `{context}` slot
(src/rag.py lines 113–123). -/
def prompt_template_pre : String :=
  "\nYou are a helpful data analyst.\n\nRules:\n- Use ONLY the information in the context\n- If the answer is not present, say: \"I don't have that information in the data\"\n- Mention whether the data came from holding or trade if relevant\n- Do NOT guess or hallucinate\n\nContext:\n"

/-- Text of the prompt template between `{context}` and `{question}`
(src/rag.py lines 124–126). -/
def prompt_template_mid : String := "\n\nQuestion:\n"

/-- Text of the prompt template after `{question}` (src/rag.py lines
127–129). -/
def prompt_template_post : String := "\n\nAnswer:\n"

/-- Filling the fixed `PromptTemplate` (src/rag.py lines 113–129) with a
context and a question. -/
def fill_prompt (context question : String) : String :=
  prompt_template_pre ++ context ++ prompt_template_mid ++ question ++
    prompt_template_post

/-- `StrOutputParser` (src/rag.py line 141): parse the model output to its
string content. -/
def str_output_parse (m : LLMMessage) : String := m.content

/-- `rag_chain.invoke(question)` (src/rag.py lines 134–142): the retriever
fills `{context}`, `RunnablePassthrough` feeds the question unchanged into
`{question}`, the filled prompt goes to the chat model, and the output is
parsed to a string.  Raises whatever the model call raises. -/
def rag_chain_invoke (cfg : RagConfig) (question : String) :
    Except PyExn String :=
  match cfg.llm
      (fill_prompt (cfg.format_docs (retrieve cfg 100 question)) question) with
  | .ok msg => .ok (str_output_parse msg)
  | .error e => .error e

/-- Python's `str.lower()` as applied at src/rag.py line 154, modelled as
the characterwise ASCII lowercase map.  (Executable by structural recursion,
unlike `String.toLower`, whose `String.mapAux` is defined by well-founded
recursion.) -/
def py_lower (s : String) : String := ⟨s.data.map Char.toLower⟩

/-- The exit commands of the Q&A loop (src/rag.py line 154). -/
def exit_words : List String := ["exit", "quit", "q"]

/-- What one loop iteration does after reading its input. -/
inductive LoopResult
  | goodbye
  | answer_line (s : String)
  | error_line (s : String)
deriving DecidableEq

/-- The message a Python exception prints as (`f"⚠️ Error: {e}"`). -/
def exn_message : PyExn → String
  | .executeSQLQueryNotUsed => "ExecuteSQLQueryNotUsed"
  | .other msg => msg

/-- One iteration of the interactive loop (src/rag.py lines 151–162): break
on an exit word (lowercased comparison), otherwise invoke the chain and
print either the answer or the caught exception.  The iteration returns the
configuration it consulted, making any mutation of it observable. -/
def loop_body (cfg : RagConfig) (user_question : String) :
    RagConfig × LoopResult :=
  if py_lower user_question ∈ exit_words then
    (cfg, .goodbye)
  else
    match rag_chain_invoke cfg user_question with
    | .ok answer => (cfg, .answer_line ("\nAI: " ++ answer ++ "\n"))
    | .error e => (cfg, .error_line ("⚠️ Error: " ++ exn_message e ++ "\n"))

/-- The interactive loop over a (finite prefix of the) input stream,
threading the configuration returned by each iteration into the next. -/
def run_loop (cfg : RagConfig) : List String → List LoopResult
  | [] => []
  | q :: rest =>
    match loop_body cfg q with
    | (_, .goodbye) => [.goodbye]
    | (cfg2, r) => r :: run_loop cfg2 rest

/-! ## Concrete instances used to instantiate the theorems -/

/-- A backend whose every delegated call raises a generic exception. -/
def b_fail : ChatBackend :=
  { holdings_chat := fun _ => .error (.other "boom")
    trades_chat := fun _ => .error (.other "boom")
    pai_chat := fun _ => .error (.other "boom") }

/-- A backend whose every delegated call succeeds with a string answer. -/
def b_ok : ChatBackend :=
  { holdings_chat := fun q => .ok (.str ("H:" ++ q))
    trades_chat := fun q => .ok (.str ("T:" ++ q))
    pai_chat := fun q => .ok (.str ("B:" ++ q)) }

/-- An environment defining none of the variables. -/
def env_none : Env := fun _ => none

/-- An environment defining every variable as "x". -/
def env_all : Env := fun _ => some "x"

/-- A small concrete rag configuration with a successful model. -/
def cfg_ok : RagConfig :=
  { holding_csv := [[("A", some "1")], [("B", none)]]
    trade_csv := [[("C", some "2")]]
    similarity := fun _ _ => 0
    format_docs := fun ds => String.intercalate "\n\n" (ds.map Document.page_content)
    llm := fun _ => .ok { content := "ok" } }

/-- A small concrete rag configuration whose model call raises. -/
def cfg_err : RagConfig :=
  { holding_csv := [[("A", some "1")], [("B", none)]]
    trade_csv := [[("C", some "2")]]
    similarity := fun _ _ => 0
    format_docs := fun ds => String.intercalate "\n\n" (ds.map Document.page_content)
    llm := fun _ => .error (.other "boom") }

end CsvChatbot

namespace CsvChatbot

/-! ## Theorems -/

/-- Claim C5: both programs read the four environment variables
AZURE_OPENAI_API_KEY, AZURE_OPENAI_ENDPOINT, AZURE_OPENAI_DEPLOYMENT and
AZURE_OPENAI_API_VERSION and validate them for presence: when any is absent
or empty the chat UI displays an error and stops and the console script
raises ValueError, and in both programs the hosted chat-model client is
constructed exactly when all four are present. -/
theorem env_vars_validated (env : Env) :
    ((app_startup env).isOk = all_azure_env env) ∧
    ((rag_startup env).isOk = all_azure_env env) ∧
    (all_azure_env env = false →
      app_startup env = .error "❌ Azure OpenAI environment variables are missing" ∧
      rag_startup env = .error "❌ Missing Azure OpenAI environment variables") ∧
    (all_azure_env env = true →
      app_startup env = .ok (init_llm ((env "AZURE_OPENAI_DEPLOYMENT").getD "")
        ((env "AZURE_OPENAI_API_KEY").getD "")
        ((env "AZURE_OPENAI_ENDPOINT").getD "")
        ((env "AZURE_OPENAI_API_VERSION").getD "")) ∧
      (rag_startup env).isOk = true) := by
  unfold app_startup rag_startup
  cases h : all_azure_env env <;> simp [h, Except.isOk, Except.toBool]

/-- Witness for `env_vars_validated`: with every variable missing both
programs report the error, and with every variable present the chat UI
constructs the client. -/
theorem env_vars_validated_witness :
    (app_startup env_none = .error "❌ Azure OpenAI environment variables are missing" ∧
      rag_startup env_none = .error "❌ Missing Azure OpenAI environment variables") ∧
    (app_startup env_all = .ok (init_llm ((env_all "AZURE_OPENAI_DEPLOYMENT").getD "")
        ((env_all "AZURE_OPENAI_API_KEY").getD "")
        ((env_all "AZURE_OPENAI_ENDPOINT").getD "")
        ((env_all "AZURE_OPENAI_API_VERSION").getD "")) ∧
      (rag_startup env_all).isOk = true) :=
  ⟨(env_vars_validated env_none).2.2.1 (by decide),
   (env_vars_validated env_all).2.2.2 (by decide)⟩

/-- Claim C2: the selected data scope fully determines which delegated object
receives the question — "Holdings" sends it to the holdings dataframe only,
"Trades" to the trades dataframe only, and any other selection to `pai.chat`
with both dataframes; the response never depends on an object outside the
selected scope. -/
theorem scope_determines_target (b b2 : ChatBackend) (prompt : String) :
    delegated_call_result b "Holdings" prompt = b.holdings_chat prompt ∧
    delegated_call_result b "Trades" prompt = b.trades_chat prompt ∧
    (∀ data_scope, data_scope ≠ "Holdings" → data_scope ≠ "Trades" →
      delegated_call_result b data_scope prompt = b.pai_chat prompt) ∧
    scope_response b "Holdings" prompt = safe_chat b.holdings_chat prompt ∧
    scope_response b "Trades" prompt = safe_chat b.trades_chat prompt ∧
    (b2.holdings_chat = b.holdings_chat →
      scope_response b2 "Holdings" prompt = scope_response b "Holdings" prompt) ∧
    (b2.trades_chat = b.trades_chat →
      scope_response b2 "Trades" prompt = scope_response b "Trades" prompt) ∧
    (∀ data_scope, data_scope ≠ "Holdings" → data_scope ≠ "Trades" →
      b2.pai_chat = b.pai_chat →
      scope_response b2 data_scope prompt = scope_response b data_scope prompt) := by
  refine ⟨by simp [delegated_call_result], by simp [delegated_call_result],
    fun s h1 h2 => by simp [delegated_call_result, h1, h2],
    by simp [scope_response, scope_response_attempt],
    by simp [scope_response, scope_response_attempt],
    fun h => by simp [scope_response, scope_response_attempt, h],
    fun h => by simp [scope_response, scope_response_attempt, h],
    fun s h1 h2 h => by simp [scope_response, scope_response_attempt, h1, h2, h]⟩

/-- Witness for `scope_determines_target` at a concrete backend and prompt,
exercising the "Holdings" and the combined scope. -/
theorem scope_determines_target_witness :
    delegated_call_result b_fail "Holdings" "hi" = b_fail.holdings_chat "hi" ∧
    delegated_call_result b_fail "Holdings + Trades" "hi" = b_fail.pai_chat "hi" ∧
    scope_response b_fail "Holdings + Trades" "hi" =
      scope_response b_fail "Holdings + Trades" "hi" :=
  ⟨(scope_determines_target b_fail b_fail "hi").1,
   (scope_determines_target b_fail b_fail "hi").2.2.1 "Holdings + Trades"
     (by decide) (by decide),
   (scope_determines_target b_fail b_fail "hi").2.2.2.2.2.2.2 "Holdings + Trades"
     (by decide) (by decide) rfl⟩

/-- Claim C1: for every question, under any of the three data scopes, if the
delegated chat call raises, the assistant response that is rendered and
appended is exactly the fixed fallback string, and that string is
character-for-character the one the system prompt instructs the library to
return when no answer is derivable. -/
theorem delegated_exception_yields_fallback (b : ChatBackend)
    (data_scope : String) (messages : List Message) (prompt : String)
    (e : PyExn) (hp : ¬ prompt = "")
    (hfail : delegated_call_result b data_scope prompt = .error e) :
    scope_response b data_scope prompt = .str fallbackAnswer ∧
    handle_prompt b data_scope messages prompt =
      messages ++ [{ role := "user", content := .text prompt },
        { role := "assistant", content := .text fallbackAnswer }] ∧
    render_message { role := "assistant", content := .text fallbackAnswer } =
      .write "assistant" (.text fallbackAnswer) ∧
    fallbackAnswer = system_prompt_fallback ∧
    System_prompt = System_prompt_before_rule6_answer ++ "\"" ++
      fallbackAnswer ++ "\"" ++ System_prompt_after_rule6_answer := by
  have hresp : scope_response b data_scope prompt = .str fallbackAnswer := by
    by_cases h1 : data_scope = "Holdings"
    · subst h1
      have hb : b.holdings_chat prompt = .error e := by
        simpa [delegated_call_result] using hfail
      cases e <;>
        simp [scope_response, scope_response_attempt, safe_chat, hb]
    · by_cases h2 : data_scope = "Trades"
      · subst h2
        have hb : b.trades_chat prompt = .error e := by
          simpa [delegated_call_result] using hfail
        cases e <;>
          simp [scope_response, scope_response_attempt, safe_chat, hb]
      · have hb : b.pai_chat prompt = .error e := by
          simpa [delegated_call_result, h1, h2] using hfail
        simp [scope_response, scope_response_attempt, h1, h2, hb]
  refine ⟨hresp, ?_, rfl, rfl, rfl⟩
  unfold handle_prompt
  rw [if_neg hp, hresp]
  simp [assistant_message]

/-- Witness for `delegated_exception_yields_fallback`: a concrete failing
backend under the "Holdings" scope. -/
theorem delegated_exception_yields_fallback_witness :
    scope_response b_fail "Holdings" "hi" = .str fallbackAnswer ∧
    handle_prompt b_fail "Holdings" [] "hi" =
      [] ++ [{ role := "user", content := .text "hi" },
        { role := "assistant", content := .text fallbackAnswer }] ∧
    render_message { role := "assistant", content := .text fallbackAnswer } =
      .write "assistant" (.text fallbackAnswer) ∧
    fallbackAnswer = system_prompt_fallback ∧
    System_prompt = System_prompt_before_rule6_answer ++ "\"" ++
      fallbackAnswer ++ "\"" ++ System_prompt_after_rule6_answer :=
  delegated_exception_yields_fallback b_fail "Holdings" [] "hi" (.other "boom")
    (by decide) rfl

/-- Claim C6: a non-empty submitted prompt appends exactly two entries, in
order — first the user entry carrying the prompt, then the assistant entry
holding the response — and the history is re-rendered in list order, with
dict contents holding a "dataframe" key rendered as a table and every other
content rendered as text. -/
theorem prompt_appends_two_messages (b : ChatBackend) (data_scope : String)
    (messages : List Message) (prompt : String) (hp : ¬ prompt = "") :
    (handle_prompt b data_scope messages prompt).take messages.length =
      messages ∧
    (handle_prompt b data_scope messages prompt).drop messages.length =
      [{ role := "user", content := .text prompt },
       assistant_message (scope_response b data_scope prompt)] ∧
    (assistant_message (scope_response b data_scope prompt)).role =
      "assistant" ∧
    (∀ msgs : List Message, ∀ i : Nat,
      (render_history msgs)[i]? = (msgs[i]?).map render_message) ∧
    (∀ (role : String) (d : DataFrame),
      render_message { role := role, content := .dataframeDict d } =
        .table role d) ∧
    (∀ role s : String,
      render_message { role := role, content := .text s } =
        .write role (.text s)) := by
  have hh : handle_prompt b data_scope messages prompt =
      messages ++ [{ role := "user", content := .text prompt },
        assistant_message (scope_response b data_scope prompt)] := by
    unfold handle_prompt
    rw [if_neg hp]
    simp
  refine ⟨?_, ?_, ?_, ?_, fun role d => rfl, fun role s => rfl⟩
  · rw [hh, List.take_left]
  · rw [hh, List.drop_left]
  · cases hr : scope_response b data_scope prompt <;> simp [assistant_message]
  · intro msgs i
    simp [render_history]

/-- Witness for `prompt_appends_two_messages` at a concrete backend, history
and prompt. -/
theorem prompt_appends_two_messages_witness :
    (handle_prompt b_ok "Trades" [{ role := "user", content := .text "old" }]
        "hi").take 1 = [{ role := "user", content := .text "old" }] ∧
    (handle_prompt b_ok "Trades" [{ role := "user", content := .text "old" }]
        "hi").drop 1 =
      [{ role := "user", content := .text "hi" },
       assistant_message (scope_response b_ok "Trades" "hi")] := by
  have h := prompt_appends_two_messages b_ok "Trades"
    [{ role := "user", content := .text "old" }] "hi" (by decide)
  exact ⟨h.1, h.2.1⟩

/-- Claim C10: every entry of the session message list has role "user" or
"assistant"; the list starts empty, Clear chat resets it to empty, and every
modification preserves the invariant. -/
theorem message_roles_invariant (b : ChatBackend) (data_scope : String)
    (events : List UIEvent) :
    session_messages b data_scope [] = [] ∧
    (∀ messages, ui_step b data_scope messages .clear_chat = []) ∧
    (∀ m ∈ session_messages b data_scope events,
      m.role = "user" ∨ m.role = "assistant") := by
  refine ⟨rfl, fun _ => rfl, ?_⟩
  have step : ∀ (msgs : List Message) (ev : UIEvent),
      (∀ m ∈ msgs, m.role = "user" ∨ m.role = "assistant") →
      ∀ m ∈ ui_step b data_scope msgs ev,
        m.role = "user" ∨ m.role = "assistant" := by
    intro msgs ev h
    cases ev with
    | clear_chat => simp [ui_step]
    | chat_input p =>
      simp only [ui_step]
      unfold handle_prompt
      split
      · exact h
      · intro m hm
        simp only [List.mem_append, List.mem_singleton] at hm
        rcases hm with (hm | hm) | hm
        · exact h m hm
        · left; rw [hm]
        · right; rw [hm]
          cases scope_response b data_scope p <;> rfl
  have fold : ∀ (evs : List UIEvent) (init : List Message),
      (∀ m ∈ init, m.role = "user" ∨ m.role = "assistant") →
      ∀ m ∈ evs.foldl (ui_step b data_scope) init,
        m.role = "user" ∨ m.role = "assistant" := by
    intro evs
    induction evs with
    | nil => intro init h; simpa using h
    | cons ev rest ih =>
      intro init h
      exact ih (ui_step b data_scope init ev) (step init ev h)
  exact fold events [] (by simp)

/-- Witness for `message_roles_invariant`: the invariant evaluated on a
concrete event sequence containing a submission, a clear, and another
submission. -/
theorem message_roles_invariant_witness :
    ({ role := "user", content := .text "yo" } : Message).role = "user" ∨
    ({ role := "user", content := .text "yo" } : Message).role = "assistant" :=
  (message_roles_invariant b_ok "Holdings"
    [.chat_input "hi", .clear_chat, .chat_input "yo"]).2.2
    { role := "user", content := .text "yo" } (by decide)

/-- On a row whose cells are all present, the filterMap of
`create_readable_text_from_row` keeps every "column: value" pair. -/
theorem filterMap_row_of_no_none :
    ∀ row : Row, (∀ cv ∈ row, cv.2 ≠ none) →
    row.filterMap (fun cv => cv.2.map fun v => cv.1 ++ ": " ++ v) =
      row.map fun cv => cv.1 ++ ": " ++ cv.2.getD "" := by
  intro row
  induction row with
  | nil => intro _; rfl
  | cons cv rest ih =>
    intro h
    cases hcv : cv.2 with
    | none => exact absurd hcv (h cv (List.mem_cons_self cv rest))
    | some v =>
      simp only [List.filterMap_cons, List.map_cons, hcv, Option.map_some]
      rw [ih fun p hp => h p (List.mem_cons_of_mem cv hp)]
      rfl

/-- Claim C3: `df_to_documents` yields one document per dataframe row, in row
order; the holdings dataframe keeps the first 1023 CSV rows and the trades
dataframe the first 700; the combined list is the holdings documents (source
"holding") followed by the trade documents (source "trade"); and a row with
no null cells is rendered as its "column: value" pairs joined by ". " plus a
terminating ".". -/
theorem documents_one_per_row (cfg : RagConfig) :
    (holding_df cfg).length = min 1023 cfg.holding_csv.length ∧
    (trade_df cfg).length = min 700 cfg.trade_csv.length ∧
    (documents cfg).length = (holding_df cfg).length + (trade_df cfg).length ∧
    (∀ i : Nat, ∀ r : Row, (holding_df cfg)[i]? = some r →
      (documents cfg)[i]? =
        some { page_content := create_readable_text_from_row r,
               source := "holding" }) ∧
    (∀ j : Nat, ∀ r : Row, (trade_df cfg)[j]? = some r →
      (documents cfg)[(holding_df cfg).length + j]? =
        some { page_content := create_readable_text_from_row r,
               source := "trade" }) ∧
    (∀ row : Row, (∀ cv ∈ row, cv.2 ≠ none) →
      create_readable_text_from_row row =
        String.intercalate ". "
          (row.map fun cv => cv.1 ++ ": " ++ cv.2.getD "") ++ ".") := by
  refine ⟨by simp [holding_df], by simp [trade_df],
    by simp [documents, df_to_documents], ?_, ?_, ?_⟩
  · intro i r hir
    have hi : i < (holding_df cfg).length := by
      by_contra hcon
      push_neg at hcon
      rw [List.getElem?_eq_none hcon] at hir
      cases hir
    unfold documents df_to_documents
    rw [List.getElem?_append_left (by simpa using hi), List.getElem?_map, hir]
    rfl
  · intro j r hjr
    unfold documents df_to_documents
    rw [List.getElem?_append_right (by simp), List.length_map,
      Nat.add_sub_cancel_left, List.getElem?_map, hjr]
    rfl
  · intro row h
    unfold create_readable_text_from_row
    rw [filterMap_row_of_no_none row h]

/-- Witness for `documents_one_per_row`: concrete CSVs with one holding row
and one trade row. -/
theorem documents_one_per_row_witness :
    (documents cfg_ok)[0]? =
      some { page_content := create_readable_text_from_row [("A", some "1")],
             source := "holding" } ∧
    (documents cfg_ok)[(holding_df cfg_ok).length + 0]? =
      some { page_content := create_readable_text_from_row [("C", some "2")],
             source := "trade" } ∧
    create_readable_text_from_row [("A", some "1")] =
      String.intercalate ". "
        ([("A", some "1")].map fun cv : String × Option String =>
          cv.1 ++ ": " ++ cv.2.getD "") ++ "." :=
  ⟨(documents_one_per_row cfg_ok).2.2.2.1 0 [("A", some "1")] (by decide),
   (documents_one_per_row cfg_ok).2.2.2.2.1 0 [("C", some "2")] (by decide),
   (documents_one_per_row cfg_ok).2.2.2.2.2 [("A", some "1")] (by decide)⟩

/-- Claim C9: `create_readable_text_from_row` omits every null field from the
generated text, and on an all-null row it returns exactly ".". -/
theorem null_fields_omitted (pre post : List (String × Option String))
    (col : String) :
    create_readable_text_from_row (pre ++ (col, none) :: post) =
      create_readable_text_from_row (pre ++ post) ∧
    (∀ row : Row, (∀ cv ∈ row, cv.2 = none) →
      create_readable_text_from_row row = ".") := by
  constructor
  · unfold create_readable_text_from_row
    simp [List.filterMap_append, List.filterMap_cons]
  · intro row h
    unfold create_readable_text_from_row
    have hnil : row.filterMap
        (fun cv => cv.2.map fun v => cv.1 ++ ": " ++ v) = [] := by
      rw [List.filterMap_eq_nil_iff]
      intro cv hcv
      rw [h cv hcv]
      rfl
    rw [hnil]
    rfl

/-- Witness for `null_fields_omitted`: dropping a concrete null column, and
an all-null row rendered as ".". -/
theorem null_fields_omitted_witness :
    create_readable_text_from_row
        ([("A", some "1")] ++ ("B", none) :: [("C", some "2")]) =
      create_readable_text_from_row ([("A", some "1")] ++ [("C", some "2")]) ∧
    create_readable_text_from_row [("X", none), ("Y", none)] = "." :=
  ⟨(null_fields_omitted [("A", some "1")] [("C", some "2")] "B").1,
   (null_fields_omitted [] [] "Z").2 [("X", none), ("Y", none)] (by decide)⟩

/-- The retriever is a genuine top-k selection: the retrieved documents
together with some rest are a permutation of the whole index, and every
retrieved document scores at least as high as every non-retrieved one. -/
theorem retrieve_topk (cfg : RagConfig) (k : Nat) (question : String) :
    ∃ rest : List Document,
      (retrieve cfg k question ++ rest).Perm (documents cfg) ∧
      ∀ a ∈ retrieve cfg k question, ∀ b ∈ rest,
        cfg.similarity question b ≤ cfg.similarity question a := by
  refine ⟨(List.mergeSort (documents cfg) fun a b =>
    decide (cfg.similarity question b ≤ cfg.similarity question a)).drop k,
    ?_, ?_⟩
  · unfold retrieve
    rw [List.take_append_drop]
    exact List.mergeSort_perm _ _
  · intro a ha b hb
    have hsorted : (List.mergeSort (documents cfg) fun a b =>
        decide (cfg.similarity question b ≤ cfg.similarity question a)).Pairwise
        (fun a b =>
          decide (cfg.similarity question b ≤ cfg.similarity question a) = true) := by
      apply List.sorted_mergeSort
      · intro x y z hxy hyz
        simp only [decide_eq_true_eq] at *
        exact le_trans hyz hxy
      · intro x y
        rcases le_total (cfg.similarity question y) (cfg.similarity question x)
          with h | h
        · simp [h]
        · simp [h]
    rw [← List.take_append_drop k (List.mergeSort (documents cfg) fun a b =>
      decide (cfg.similarity question b ≤ cfg.similarity question a))] at hsorted
    obtain ⟨-, -, cross⟩ := List.pairwise_append.mp hsorted
    have hab := cross a (by simpa [retrieve] using ha) b hb
    simpa using hab

/-- Claim C4: every question goes through the fixed RAG pipeline — the
retriever selects the k = 100 most similar documents, those documents fill
the `{context}` slot while the question passes unchanged into `{question}`
of the fixed template, the filled prompt is forwarded to the chat model, and
the model output is parsed to the returned answer string. -/
theorem rag_pipeline_fixed (cfg : RagConfig) (question : String) :
    (retrieve cfg 100 question).length = min 100 (documents cfg).length ∧
    (∃ rest : List Document,
      (retrieve cfg 100 question ++ rest).Perm (documents cfg) ∧
      ∀ a ∈ retrieve cfg 100 question, ∀ b ∈ rest,
        cfg.similarity question b ≤ cfg.similarity question a) ∧
    (∀ context, fill_prompt context question =
      prompt_template_pre ++ context ++ prompt_template_mid ++ question ++
        prompt_template_post) ∧
    (∀ msg, cfg.llm (fill_prompt
        (cfg.format_docs (retrieve cfg 100 question)) question) = .ok msg →
      rag_chain_invoke cfg question = .ok msg.content) ∧
    (∀ e, cfg.llm (fill_prompt
        (cfg.format_docs (retrieve cfg 100 question)) question) = .error e →
      rag_chain_invoke cfg question = .error e) := by
  refine ⟨by simp [retrieve], retrieve_topk cfg 100 question,
    fun context => rfl, ?_, ?_⟩
  · intro msg h
    unfold rag_chain_invoke
    rw [h]
    rfl
  · intro e h
    unfold rag_chain_invoke
    rw [h]

/-- Witness for `rag_pipeline_fixed` at a concrete configuration and
question. -/
theorem rag_pipeline_fixed_witness :
    (retrieve cfg_ok 100 "hi").length = min 100 (documents cfg_ok).length ∧
    fill_prompt "ctx" "hi" =
      prompt_template_pre ++ "ctx" ++ prompt_template_mid ++ "hi" ++
        prompt_template_post ∧
    rag_chain_invoke cfg_ok "hi" =
      .ok ({ content := "ok" } : LLMMessage).content :=
  ⟨(rag_pipeline_fixed cfg_ok "hi").1,
   (rag_pipeline_fixed cfg_ok "hi").2.2.1 "ctx",
   (rag_pipeline_fixed cfg_ok "hi").2.2.2.1 { content := "ok" } rfl⟩

/-- One loop iteration never changes the configuration it consulted. -/
theorem loop_body_fst (cfg : RagConfig) (q : String) :
    (loop_body cfg q).1 = cfg := by
  unfold loop_body
  split
  · rfl
  · split <;> rfl

/-- On a non-exit input the iteration keeps the configuration and does not
break. -/
theorem loop_body_continue (cfg : RagConfig) (q : String)
    (h : ¬ py_lower q ∈ exit_words) :
    (loop_body cfg q).1 = cfg ∧ (loop_body cfg q).2 ≠ .goodbye := by
  refine ⟨loop_body_fst cfg q, ?_⟩
  unfold loop_body
  rw [if_neg h]
  cases hx : rag_chain_invoke cfg q <;> simp

/-- On a non-exit input the loop emits the iteration's line and continues
with the same configuration. -/
theorem run_loop_cons_continue (cfg : RagConfig) (q : String)
    (rest : List String) (h : ¬ py_lower q ∈ exit_words) :
    run_loop cfg (q :: rest) = (loop_body cfg q).2 :: run_loop cfg rest := by
  have h2 := loop_body_continue cfg q h
  rcases hb : loop_body cfg q with ⟨cfg2, r⟩
  rw [hb] at h2
  obtain ⟨hfst, hr⟩ := h2
  simp only at hfst hr
  subst hfst
  unfold run_loop
  rw [hb]
  cases r with
  | goodbye => exact absurd rfl hr
  | answer_line s =>
    simp only [run_loop, hb]
    cases rest <;> rfl
  | error_line s =>
    simp only [run_loop, hb]
    cases rest <;> rfl

/-- Over exit-free questions, the loop's output distributes over
concatenation of the input stream. -/
theorem run_loop_append_of_no_exit (cfg : RagConfig) :
    ∀ qs : List String, (∀ q ∈ qs, ¬ py_lower q ∈ exit_words) →
    ∀ more, run_loop cfg (qs ++ more) =
      run_loop cfg qs ++ run_loop cfg more := by
  intro qs
  induction qs with
  | nil => intro _ more; rfl
  | cons q rest ih =>
    intro h more
    have hq1 := h q (List.mem_cons_self q rest)
    rw [List.cons_append, run_loop_cons_continue cfg q _ hq1,
      run_loop_cons_continue cfg q rest hq1,
      ih (fun p hp => h p (List.mem_cons_of_mem q hp)) more, List.cons_append]

/-- Over exit-free questions, each output line is a function of the static
configuration and that question alone. -/
theorem run_loop_map_of_no_exit (cfg : RagConfig) :
    ∀ qs : List String, (∀ q ∈ qs, ¬ py_lower q ∈ exit_words) →
    run_loop cfg qs = qs.map fun q => (loop_body cfg q).2 := by
  intro qs
  induction qs with
  | nil => intro _; rfl
  | cons q rest ih =>
    intro h
    rw [run_loop_cons_continue cfg q rest (h q (List.mem_cons_self q rest)),
      ih fun p hp => h p (List.mem_cons_of_mem q hp), List.map_cons]

/-- Claim C7: the interactive Q&A loop answers each question independently
from the same static state — no iteration mutates the configuration (the
documents, vector store, retriever, template and chain it consults), so over
exit-free questions the answers concatenate and each one is determined by
the static configuration and its own question. -/
theorem loop_is_stateless (cfg : RagConfig) (questions : List String)
    (hq : ∀ q ∈ questions, ¬ py_lower q ∈ exit_words) (more : List String) :
    (∀ q, (loop_body cfg q).1 = cfg) ∧
    run_loop cfg (questions ++ more) =
      run_loop cfg questions ++ run_loop cfg more ∧
    run_loop cfg questions = questions.map fun q => (loop_body cfg q).2 :=
  ⟨fun q => loop_body_fst cfg q,
   run_loop_append_of_no_exit cfg questions hq more,
   run_loop_map_of_no_exit cfg questions hq⟩

/-- Witness for `loop_is_stateless` on a concrete question stream. -/
theorem loop_is_stateless_witness :
    (loop_body cfg_ok "hello").1 = cfg_ok ∧
    run_loop cfg_ok (["hello"] ++ ["quit"]) =
      run_loop cfg_ok ["hello"] ++ run_loop cfg_ok ["quit"] ∧
    run_loop cfg_ok ["hello"] =
      ["hello"].map fun q => (loop_body cfg_ok q).2 :=
  ⟨(loop_is_stateless cfg_ok ["hello"] (by decide) ["quit"]).1 "hello",
   (loop_is_stateless cfg_ok ["hello"] (by decide) ["quit"]).2.1,
   (loop_is_stateless cfg_ok ["hello"] (by decide) ["quit"]).2.2⟩

/-- Claim C8: the console loop terminates exactly when the lowercased input
is "exit", "quit" or "q"; on any other input an exception raised while
computing the answer is caught and printed and the loop continues with the
next question. -/
theorem loop_exit_and_error_handling (cfg : RagConfig) (q : String)
    (rest : List String) :
    ((loop_body cfg q).2 = .goodbye ↔
      py_lower q = "exit" ∨ py_lower q = "quit" ∨ py_lower q = "q") ∧
    (py_lower q ∈ exit_words → run_loop cfg (q :: rest) = [.goodbye]) ∧
    (∀ e, ¬ py_lower q ∈ exit_words → rag_chain_invoke cfg q = .error e →
      run_loop cfg (q :: rest) =
        .error_line ("⚠️ Error: " ++ exn_message e ++ "\n") ::
          run_loop cfg rest) := by
  refine ⟨?_, ?_, ?_⟩
  · by_cases h : py_lower q ∈ exit_words
    · constructor
      · intro _
        simpa [exit_words] using h
      · intro _
        unfold loop_body
        rw [if_pos h]
    · constructor
      · intro hg
        exfalso
        unfold loop_body at hg
        rw [if_neg h] at hg
        revert hg
        cases hx : rag_chain_invoke cfg q <;> simp
      · intro hor
        exact absurd (by simpa [exit_words] using hor) h
  · intro h
    unfold run_loop loop_body
    rw [if_pos h]
  · intro e h hinv
    rw [run_loop_cons_continue cfg q rest h]
    unfold loop_body
    rw [if_neg h, hinv]

/-- Witness for `loop_exit_and_error_handling`: "EXIT" terminates the loop,
and a raising model call prints the error and continues. -/
theorem loop_exit_and_error_handling_witness :
    run_loop cfg_err ["Quit", "x"] = [.goodbye] ∧
    run_loop cfg_err ["ask"] =
      .error_line ("⚠️ Error: " ++ exn_message (.other "boom") ++ "\n") ::
        run_loop cfg_err ([] : List String) :=
  ⟨(loop_exit_and_error_handling cfg_err "Quit" ["x"]).2.1 (by decide),
   (loop_exit_and_error_handling cfg_err "ask" []).2.2 (.other "boom")
     (by decide) rfl⟩

end CsvChatbot
